import Mathlib

/-!
Verification of the miniflux python client (src/miniflux.py) against its
natural-language specification.  The client module is shallowly embedded:
JSON values become an inductive type, an HTTP response becomes a structure,
each client method becomes a Lean function from the client configuration
and a session (a function from requests to responses) to the list of
requests it performs together with its outcome (a returned value or a
raised exception, via Except).
-/

namespace Miniflux

/-- JSON values, as decoded by response.json() / serialized by json.dumps.
Objects are association lists in insertion order; numbers are modelled as
integers, which covers every value the claims touch. -/
inductive Json where
  | null : Json
  | bool : Bool → Json
  | num : Int → Json
  | str : String → Json
  | arr : List Json → Json
  | obj : List (String × Json) → Json

/-- Whether a JSON-representable value is None (the result of the Python
identity check with None). -/
def Json.isNull : Json → Bool
  | .null => true
  | _ => false

/-- Python truthiness of a JSON-representable value: None, False, 0, the
empty string and empty collections are falsy, everything else truthy. -/
def Json.isTruthy : Json → Bool
  | .null => false
  | .bool b => b
  | .num n => n != 0
  | .str s => s != ""
  | .arr l => !l.isEmpty
  | .obj l => !l.isEmpty

/-- dict.get(key, default): the value at the key, or the default. -/
def dictGet (fields : List (String × Json)) (key : String) (default : Json) : Json :=
  match fields.lookup key with
  | some v => v
  | none => default

/-- One step of dict.update: overwrite the value at an existing key in
place, or append the pair at the end. -/
def dictSet (d : List (String × Json)) (k : String) (v : Json) : List (String × Json) :=
  if d.any (fun kv => kv.1 == k) then
    d.map (fun kv => if kv.1 == k then (k, v) else kv)
  else d ++ [(k, v)]

/-- dict.update(other): fold dictSet over the other mapping. -/
def dictUpdate (d other : List (String × Json)) : List (String × Json) :=
  other.foldl (fun acc kv => dictSet acc kv.1 kv.2) d

/-- An optional Python str argument as the JSON value it contributes. -/
def jsonOfOptStr : Option String → Json
  | none => .null
  | some s => .str s

/-- An optional Python int argument as the JSON value it contributes. -/
def jsonOfOptInt : Option Int → Json
  | none => .null
  | some n => .num n

/-- An optional Python bool argument as the JSON value it contributes. -/
def jsonOfOptBool : Option Bool → Json
  | none => .null
  | some b => .bool b

/-- An optional Python list-of-str argument as the JSON value it contributes. -/
def jsonOfOptStrList : Option (List String) → Json
  | none => .null
  | some l => .arr (l.map .str)

/-- An HTTP response as the client observes it: the status code, the
response headers, and the result of response.json() — some decoded value
when the body is valid JSON, none when the body is absent or not valid
JSON (in which case response.json() raises). -/
structure Response where
  status_code : Nat
  headers : List (String × String) := []
  body : Option Json := none

/-- HTTP methods used by the client. -/
inductive Method where
  | get | post | put | delete
deriving DecidableEq

/-- A request the client hands to the session: method, full URL, optional
serialized JSON body (the data= argument) and optional query parameters
(the params= argument). -/
structure Request where
  method : Method
  url : String
  body : Option Json := none
  params : Option (List (String × Json)) := none

/-- A session maps each request to the response of the server. -/
def Session : Type := Request → Response

/-- The exception hierarchy rooted at ClientError: one constructor per
class, each carrying the originating response, mirroring
ClientError.__init__ storing the response. -/
inductive ClientError where
  | clientError (response : Response)
  | resourceNotFound (response : Response)
  | accessForbidden (response : Response)
  | accessUnauthorized (response : Response)
  | badRequest (response : Response)
  | serverError (response : Response)

/-- The response stored on the exception. -/
def ClientError.response : ClientError → Response
  | .clientError r => r
  | .resourceNotFound r => r
  | .accessForbidden r => r
  | .accessUnauthorized r => r
  | .badRequest r => r
  | .serverError r => r

/-- The status_code attribute set by ClientError.__init__. -/
def ClientError.status_code (e : ClientError) : Nat := e.response.status_code

/-- The class of the exception, forgetting the carried response. -/
inductive ErrorKind where
  | generic | resourceNotFound | accessForbidden | accessUnauthorized
  | badRequest | serverError
deriving DecidableEq

/-- Which class a raised ClientError belongs to. -/
def ClientError.kind : ClientError → ErrorKind
  | .clientError _ => .generic
  | .resourceNotFound _ => .resourceNotFound
  | .accessForbidden _ => .accessForbidden
  | .accessUnauthorized _ => .accessUnauthorized
  | .badRequest _ => .badRequest
  | .serverError _ => .serverError

/-- Everything a client method can raise: a ClientError subclass from
_handle_error_response, a ValueError from local validation, or the JSON
decoding error that response.json() raises on an absent or invalid body. -/
inductive PyError where
  | apiError (e : ClientError)
  | valueError (msg : String)
  | jsonDecodeError

/-- response.json(): the decoded value, or the decoding error when the
body is absent or not valid JSON. -/
def Response.pyJson (r : Response) : Except PyError Json :=
  match r.body with
  | some j => .ok j
  | none => .error .jsonDecodeError

/-- ClientError.get_error_reason.  The default reason embeds the status
code; when the Content-Type header is exactly application/json the body is
decoded (raising on an invalid body), and a decoded mapping yields the
value at the error_message key, defaulting to the default reason. -/
def ClientError.get_error_reason (e : ClientError) : Except PyError Json :=
  let default_reason := Json.str ("status_code=" ++ toString e.status_code)
  if e.response.headers.lookup "Content-Type" = some "application/json" then
    match e.response.body with
    | none => .error .jsonDecodeError
    | some result =>
      match result with
      | .obj fields => .ok (dictGet fields "error_message" default_reason)
      | _ => .ok default_reason
  else
    .ok default_reason

/-- Client.API_VERSION. -/
def API_VERSION : Nat := 1

/-- The client configuration the claims depend on: the normalized base
URL fixed at construction.  Authentication material and timeout are
transport configuration and play no part in any claim. -/
structure Client where
  base_url : String
deriving DecidableEq

/-- Python str.rstrip with the single character "/": remove every
trailing slash. -/
def rstripSlash (s : String) : String :=
  ((s.data.reverse.dropWhile (fun c => c == '/')).reverse).asString

/-- Whether one character list is a prefix of another. -/
def listIsPrefixOf : List Char → List Char → Bool
  | [], _ => true
  | _ :: _, [] => false
  | a :: as, b :: bs => a == b && listIsPrefixOf as bs

/-- Python str.startswith with a single string argument. -/
def strStartsWith (s pre : String) : Bool := listIsPrefixOf pre.data s.data

/-- Python truthiness of an Optional[str] argument: None and the empty
string are falsy. -/
def optStrTruthy : Option String → Bool
  | none => false
  | some s => s != ""

/-- Client.__init__: validate the scheme of the base URL and the
credentials, then store the base URL with trailing slashes stripped. -/
def clientInit (base_url : String) (username password api_key : Option String) :
    Except PyError Client :=
  if !(strStartsWith base_url "http://" || strStartsWith base_url "https://") then
    .error (.valueError "base_url must be a valid URL starting with http:// or https://")
  else if !(optStrTruthy api_key) && !(optStrTruthy username && optStrTruthy password) then
    .error (.valueError "Either api_key or both username and password must be provided")
  else
    .ok { base_url := rstripSlash base_url }

/-- Client._get_endpoint. -/
def Client.get_endpoint (c : Client) (path : String) : String :=
  c.base_url ++ "/v" ++ toString API_VERSION ++ path

/-- Client._get_params: keep the truthy-valued keyword arguments; when
none survive, pass no params mapping at all. -/
def get_params (kwargs : List (String × Json)) : Option (List (String × Json)) :=
  let params := kwargs.filter (fun kv => kv.2.isTruthy)
  if params.length > 0 then some params else none

/-- Client._get_modification_params: keep the keyword arguments whose
value is not None. -/
def get_modification_params (kwargs : List (String × Json)) : List (String × Json) :=
  kwargs.filter (fun kv => ! kv.2.isNull)

/-- Client._handle_error_response: classify the response by status code
and raise the matching exception class carrying the response. -/
def handle_error_response (response : Response) : ClientError :=
  if response.status_code = 404 then .resourceNotFound response
  else if response.status_code = 403 then .accessForbidden response
  else if response.status_code = 401 then .accessUnauthorized response
  else if response.status_code = 400 then .badRequest response
  else if response.status_code ≥ 500 then .serverError response
  else .clientError response

/-- The outcome of a client method: the requests it performed, in order,
and either the returned value or the raised exception. -/
def Outcome (α : Type) : Type := List Request × Except PyError α

/-- Client.get_version: GET the versioned /version endpoint, decode a 200
body, classify anything else. -/
def Client.get_version (c : Client) (session : Session) : Outcome Json :=
  let endpoint := c.get_endpoint "/version"
  let req : Request := { method := .get, url := endpoint }
  let response := session req
  ([req],
    if response.status_code = 200 then response.pyJson
    else .error (.apiError (handle_error_response response)))

/-- Client.create_feed: POST the feed_url/category_id payload merged with
the extra keyword arguments; on 201 return the feed_id member of the
decoded body. -/
def Client.create_feed (c : Client) (session : Session) (feed_url : String)
    (category_id : Option Int) (kwargs : List (String × Json)) : Outcome Json :=
  let endpoint := c.get_endpoint "/feeds"
  let data := dictUpdate [("feed_url", .str feed_url), ("category_id", jsonOfOptInt category_id)] kwargs
  let req : Request := { method := .post, url := endpoint, body := some (.obj data) }
  let response := session req
  ([req],
    if response.status_code = 201 then
      response.pyJson.bind (fun j =>
        match j with
        | .obj fields =>
          match fields.lookup "feed_id" with
          | some v => .ok v
          | none => .error (.valueError "KeyError: feed_id")
        | _ => .error (.valueError "TypeError: not subscriptable"))
    else .error (.apiError (handle_error_response response)))

/-- Client.update_feed: PUT the non-null keyword arguments; only 201
returns the decoded body. -/
def Client.update_feed (c : Client) (session : Session) (feed_id : Int)
    (kwargs : List (String × Json)) : Outcome Json :=
  let endpoint := c.get_endpoint ("/feeds/" ++ toString feed_id)
  let data := get_modification_params kwargs
  let req : Request := { method := .put, url := endpoint, body := some (.obj data) }
  let response := session req
  ([req],
    if response.status_code = 201 then response.pyJson
    else .error (.apiError (handle_error_response response)))

/-- Client.refresh_all_feeds: PUT with no body; any status at least 400
raises, everything else returns True. -/
def Client.refresh_all_feeds (c : Client) (session : Session) : Outcome Bool :=
  let endpoint := c.get_endpoint "/feeds/refresh"
  let req : Request := { method := .put, url := endpoint }
  let response := session req
  ([req],
    if response.status_code ≥ 400 then .error (.apiError (handle_error_response response))
    else .ok true)

/-- Client.refresh_feed: PUT with no body; at least 400 raises, else True. -/
def Client.refresh_feed (c : Client) (session : Session) (feed_id : Int) : Outcome Bool :=
  let endpoint := c.get_endpoint ("/feeds/" ++ toString feed_id ++ "/refresh")
  let req : Request := { method := .put, url := endpoint }
  let response := session req
  ([req],
    if response.status_code ≥ 400 then .error (.apiError (handle_error_response response))
    else .ok true)

/-- Client.refresh_category: PUT with no body; at least 400 raises, else True. -/
def Client.refresh_category (c : Client) (session : Session) (category_id : Int) : Outcome Bool :=
  let endpoint := c.get_endpoint ("/categories/" ++ toString category_id ++ "/refresh")
  let req : Request := { method := .put, url := endpoint }
  let response := session req
  ([req],
    if response.status_code ≥ 400 then .error (.apiError (handle_error_response response))
    else .ok true)

/-- Client.get_feed_entries: GET with the truthy-filtered params. -/
def Client.get_feed_entries (c : Client) (session : Session) (feed_id : Int)
    (kwargs : List (String × Json)) : Outcome Json :=
  let endpoint := c.get_endpoint ("/feeds/" ++ toString feed_id ++ "/entries")
  let req : Request := { method := .get, url := endpoint, params := get_params kwargs }
  let response := session req
  ([req],
    if response.status_code = 200 then response.pyJson
    else .error (.apiError (handle_error_response response)))

/-- Client.import_entry: reject an empty URL locally with a ValueError
before any request; otherwise POST the non-null fields and accept 200 or
201. -/
def Client.import_entry (c : Client) (session : Session) (feed_id : Int) (url : String)
    (title author content : Option String) (published_at : Option Int)
    (status : Option String) (starred : Option Bool) (tags : Option (List String))
    (external_id comments_url : Option String) : Outcome Json :=
  if url = "" then ([], .error (.valueError "url is required"))
  else
    let endpoint := c.get_endpoint ("/feeds/" ++ toString feed_id ++ "/entries/import")
    let data := get_modification_params
      [("url", .str url), ("title", jsonOfOptStr title), ("author", jsonOfOptStr author),
       ("content", jsonOfOptStr content), ("published_at", jsonOfOptInt published_at),
       ("status", jsonOfOptStr status), ("starred", jsonOfOptBool starred),
       ("tags", jsonOfOptStrList tags), ("external_id", jsonOfOptStr external_id),
       ("comments_url", jsonOfOptStr comments_url)]
    let req : Request := { method := .post, url := endpoint, body := some (.obj data) }
    let response := session req
    ([req],
      if response.status_code = 200 ∨ response.status_code = 201 then response.pyJson
      else .error (.apiError (handle_error_response response)))

/-- Client.get_entries: GET with the truthy-filtered params. -/
def Client.get_entries (c : Client) (session : Session)
    (kwargs : List (String × Json)) : Outcome Json :=
  let endpoint := c.get_endpoint "/entries"
  let req : Request := { method := .get, url := endpoint, params := get_params kwargs }
  let response := session req
  ([req],
    if response.status_code = 200 then response.pyJson
    else .error (.apiError (handle_error_response response)))

/-- Client.update_entry: PUT the non-null title/content mapping; only 201
returns the decoded body. -/
def Client.update_entry (c : Client) (session : Session) (entry_id : Int)
    (title content : Option String) : Outcome Json :=
  let endpoint := c.get_endpoint ("/entries/" ++ toString entry_id)
  let data := get_modification_params
    [("title", jsonOfOptStr title), ("content", jsonOfOptStr content)]
  let req : Request := { method := .put, url := endpoint, body := some (.obj data) }
  let response := session req
  ([req],
    if response.status_code = 201 then response.pyJson
    else .error (.apiError (handle_error_response response)))

/-- Client.update_entries: PUT the entry_ids/status payload to the
entries endpoint; at least 400 raises, else True. -/
def Client.update_entries (c : Client) (session : Session) (entry_ids : List Int)
    (status : String) : Outcome Bool :=
  let endpoint := c.get_endpoint "/entries"
  let data := Json.obj [("entry_ids", .arr (entry_ids.map .num)), ("status", .str status)]
  let req : Request := { method := .put, url := endpoint, body := some data }
  let response := session req
  ([req],
    if response.status_code ≥ 400 then .error (.apiError (handle_error_response response))
    else .ok true)

/-- Client.update_enclosure: PUT the non-null media_progression mapping;
anything other than 204 raises, else True. -/
def Client.update_enclosure (c : Client) (session : Session) (enclosure_id : Int)
    (media_progression : Option Int) : Outcome Bool :=
  let endpoint := c.get_endpoint ("/enclosures/" ++ toString enclosure_id)
  let data := get_modification_params [("media_progression", jsonOfOptInt media_progression)]
  let req : Request := { method := .put, url := endpoint, body := some (.obj data) }
  let response := session req
  ([req],
    if response.status_code ≠ 204 then .error (.apiError (handle_error_response response))
    else .ok true)

/-- Client.get_category_entries: GET with the truthy-filtered params. -/
def Client.get_category_entries (c : Client) (session : Session) (category_id : Int)
    (kwargs : List (String × Json)) : Outcome Json :=
  let endpoint := c.get_endpoint ("/categories/" ++ toString category_id ++ "/entries")
  let req : Request := { method := .get, url := endpoint, params := get_params kwargs }
  let response := session req
  ([req],
    if response.status_code = 200 then response.pyJson
    else .error (.apiError (handle_error_response response)))

/-- Client.update_category: PUT the id/title payload; only 201 returns
the decoded body. -/
def Client.update_category (c : Client) (session : Session) (category_id : Int)
    (title : String) : Outcome Json :=
  let endpoint := c.get_endpoint ("/categories/" ++ toString category_id)
  let data := Json.obj [("id", .num category_id), ("title", .str title)]
  let req : Request := { method := .put, url := endpoint, body := some data }
  let response := session req
  ([req],
    if response.status_code = 201 then response.pyJson
    else .error (.apiError (handle_error_response response)))

/-- Client.update_user: PUT the non-null keyword arguments; only 201
returns the decoded body. -/
def Client.update_user (c : Client) (session : Session) (user_id : Int)
    (kwargs : List (String × Json)) : Outcome Json :=
  let endpoint := c.get_endpoint ("/users/" ++ toString user_id)
  let data := get_modification_params kwargs
  let req : Request := { method := .put, url := endpoint, body := some (.obj data) }
  let response := session req
  ([req],
    if response.status_code = 201 then response.pyJson
    else .error (.apiError (handle_error_response response)))

/-- Reading of the spec sentence for the base-URL normalization claim:
strip one single trailing slash, when present. -/
def specStripOneTrailingSlash (s : String) : String :=
  if s.data.getLast? = some '/' then (s.data.dropLast).asString else s


end Miniflux

namespace Miniflux

/-! ## Helper lemmas -/

theorem strAppendAssoc (a b c : String) : a ++ b ++ c = a ++ (b ++ c) := by
  cases a; cases b; cases c
  exact congrArg String.mk (List.append_assoc _ _ _)

theorem isNull_false_iff (v : Json) : v.isNull = false ↔ v ≠ .null := by
  cases v <;> simp [Json.isNull]

/-! ## Claims -/

/-- C1: for every HTTP response passed to _handle_error_response, the
raised exception is determined solely by the status code — 404 raises
ResourceNotFound, 403 AccessForbidden, 401 AccessUnauthorized, 400
BadRequest, any code at least 500 ServerError, and every other code the
generic ClientError — and the raised exception carries that status code. -/
theorem c1_handle_error_classification (r : Response) :
    (handle_error_response r).status_code = r.status_code ∧
    (∀ r2 : Response, r.status_code = r2.status_code →
      (handle_error_response r).kind = (handle_error_response r2).kind) ∧
    (r.status_code = 404 → handle_error_response r = .resourceNotFound r) ∧
    (r.status_code = 403 → handle_error_response r = .accessForbidden r) ∧
    (r.status_code = 401 → handle_error_response r = .accessUnauthorized r) ∧
    (r.status_code = 400 → handle_error_response r = .badRequest r) ∧
    (500 ≤ r.status_code → handle_error_response r = .serverError r) ∧
    (r.status_code ≠ 404 → r.status_code ≠ 403 → r.status_code ≠ 401 →
      r.status_code ≠ 400 → r.status_code < 500 →
      handle_error_response r = .clientError r) := by
  refine ⟨?_, ?_, ?_, ?_, ?_, ?_, ?_, ?_⟩
  · unfold handle_error_response
    split_ifs <;> rfl
  · intro r2 h
    unfold handle_error_response
    rw [h]
    split_ifs <;> rfl
  all_goals
    intros
    unfold handle_error_response
    split_ifs <;> first | rfl | omega

/-- C1 witness: a 404 response raises ResourceNotFound. -/
theorem c1_handle_error_classification_witness :
    handle_error_response { status_code := 404 } = .resourceNotFound { status_code := 404 } :=
  (c1_handle_error_classification { status_code := 404 }).2.2.1 rfl

/-- C2 (amended): get_error_reason returns the value at the error_message
key when the response declares the application/json content type and the
body decodes to a mapping containing that key; it returns the default
string embedding the status code when the content type is not
application/json, or the decoded body is not a mapping, or the mapping
lacks the key; but when the content type is application/json and the body
is absent or not valid JSON, the JSON decoding error propagates out of
get_error_reason. -/
theorem c2_get_error_reason_cases (e : ClientError) :
    (e.response.headers.lookup "Content-Type" ≠ some "application/json" →
      e.get_error_reason = .ok (.str ("status_code=" ++ toString e.status_code))) ∧
    (∀ fields : List (String × Json),
      e.response.headers.lookup "Content-Type" = some "application/json" →
      e.response.body = some (.obj fields) →
      e.get_error_reason = .ok (dictGet fields "error_message"
        (.str ("status_code=" ++ toString e.status_code)))) ∧
    (∀ (fields : List (String × Json)) (s : String),
      e.response.headers.lookup "Content-Type" = some "application/json" →
      e.response.body = some (.obj fields) →
      fields.lookup "error_message" = some (.str s) →
      e.get_error_reason = .ok (.str s)) ∧
    (∀ j : Json,
      e.response.headers.lookup "Content-Type" = some "application/json" →
      e.response.body = some j → (∀ fields : List (String × Json), j ≠ .obj fields) →
      e.get_error_reason = .ok (.str ("status_code=" ++ toString e.status_code))) ∧
    (e.response.headers.lookup "Content-Type" = some "application/json" →
      e.response.body = none →
      e.get_error_reason = .error .jsonDecodeError) := by
  unfold ClientError.get_error_reason
  refine ⟨?_, ?_, ?_, ?_, ?_⟩
  · intro h
    simp [h]
  · intro fields hct hb
    simp [hct, hb]
  · intro fields s hct hb hf
    simp [hct, hb, dictGet, hf]
  · intro j hct hb hne
    cases j with
    | obj fields => exact absurd rfl (hne fields)
    | null => simp [hct, hb]
    | bool b => simp [hct, hb]
    | num n => simp [hct, hb]
    | str s => simp [hct, hb]
    | arr l => simp [hct, hb]
  · intro hct hb
    simp [hct, hb]

/-- C2 witness: an error for a 404 response whose JSON body carries
error_message "some error" reports that message; one whose content type
is text/html reports the default string. -/
theorem c2_get_error_reason_cases_witness :
    ClientError.get_error_reason
      (.resourceNotFound { status_code := 404, headers := [("Content-Type", "application/json")], body := some (.obj [("error_message", .str "some error")]) }) = .ok (.str "some error") ∧
    ClientError.get_error_reason
      (.serverError { status_code := 500, headers := [("Content-Type", "text/html")] })
      = .ok (.str "status_code=500") :=
  ⟨(c2_get_error_reason_cases _).2.2.1 [("error_message", .str "some error")] "some error"
      rfl rfl rfl,
   (c2_get_error_reason_cases _).1 (by decide)⟩

/-- C2 counterexample: on an error built from a 500 response that
declares Content-Type application/json but whose body is absent or not
valid JSON, get_error_reason does not return the default string — the
decoding error from response.json() propagates, contradicting the claim
that every such case yields the default string without throwing. -/
theorem c2_counterexample :
    ClientError.get_error_reason
      (.serverError { status_code := 500, headers := [("Content-Type", "application/json")], body := none })
      = .error .jsonDecodeError ∧
    ClientError.get_error_reason
      (.serverError { status_code := 500, headers := [("Content-Type", "application/json")], body := none })
      ≠ .ok (.str "status_code=500") := by
  refine ⟨rfl, fun h => ?_⟩
  have h2 : (Except.error PyError.jsonDecodeError : Except PyError Json)
      = .ok (.str "status_code=500") := h
  exact Except.noConfusion h2

/-- The endpoint of a path is the stored base URL, then /v1, then the
path (toString API_VERSION reduces to "1"). -/
theorem get_endpoint_eq (c : Client) (path : String) :
    c.get_endpoint path = c.base_url ++ "/v1" ++ path := by
  unfold Client.get_endpoint
  have hx : "/v" ++ toString API_VERSION = "/v1" := rfl
  rw [strAppendAssoc c.base_url "/v" (toString API_VERSION), hx]

/-- C3 (amended): every API method builds its target URL as the base URL
followed by /v1 and the resource path, INCLUDING the version check:
get_version requests base_url ++ "/v1/version", with the versioned
prefix, not the unversioned base_url ++ "/version". -/
theorem c3_endpoint_construction (c : Client) (path : String) (session : Session) :
    c.get_endpoint path = c.base_url ++ "/v1" ++ path ∧
    (Client.get_version c session).1.map Request.url = [c.base_url ++ "/v1/version"] ∧
    (Client.get_version c session).1.map Request.method = [Method.get] := by
  refine ⟨get_endpoint_eq c path, ?_, rfl⟩
  show [c.get_endpoint "/version"] = [c.base_url ++ "/v1/version"]
  have hx : "/v1" ++ "/version" = "/v1/version" := rfl
  rw [get_endpoint_eq, strAppendAssoc, hx]

/-- C3 counterexample: at base URL "http://localhost", get_version
requests "http://localhost/v1/version" and NOT the unversioned
"http://localhost/version" stated by the claim. -/
theorem c3_counterexample :
    (Client.get_version { base_url := "http://localhost" } (fun _ => { status_code := 200 })).1.map Request.url = ["http://localhost/v1/version"] ∧
    (Client.get_version { base_url := "http://localhost" } (fun _ => { status_code := 200 })).1.map Request.url ≠ ["http://localhost/version"] := by
  refine ⟨rfl, ?_⟩
  intro h
  have h2 : ("http://localhost/v1/version" : String) = "http://localhost/version" :=
    List.head_eq_of_cons_eq ((rfl : (["http://localhost/v1/version"] : List String) = _).symm.trans h)
  exact absurd h2 (by decide)

/-- C6 (amended): construction strips ALL trailing slashes from the base
URL (Python rstrip removes every trailing separator, not just one), and
the constructed endpoint is that stripped base URL followed by /v1 and
the path. -/
theorem c6_base_url_normalization (base_url path : String)
    (username password api_key : Option String) (c : Client)
    (h : clientInit base_url username password api_key = .ok c) :
    c.base_url = rstripSlash base_url ∧
    c.get_endpoint path = rstripSlash base_url ++ "/v1" ++ path := by
  unfold clientInit at h
  split_ifs at h
  simp only [Except.ok.injEq] at h
  subst h
  exact ⟨rfl, get_endpoint_eq _ path⟩

/-- C6 witness: a client built from "http://localhost/" with an API key
stores "http://localhost" and builds "http://localhost/v1/feeds". -/
theorem c6_base_url_normalization_witness :
    ({ base_url := "http://localhost" } : Client).base_url = rstripSlash "http://localhost/" ∧
    Client.get_endpoint { base_url := "http://localhost" } "/feeds"
      = rstripSlash "http://localhost/" ++ "/v1" ++ "/feeds" :=
  c6_base_url_normalization "http://localhost/" "/feeds" none none (some "secret") _ rfl

/-- C6 counterexample: with base URL "http://localhost//" construction
strips BOTH trailing slashes, so the endpoint "http://localhost/v1/feeds"
differs from "http://localhost//v1/feeds", the URL the claim predicts
when only a single trailing separator is removed. -/
theorem c6_counterexample :
    clientInit "http://localhost//" none none (some "secret")
      = .ok { base_url := "http://localhost" } ∧
    Client.get_endpoint { base_url := "http://localhost" } "/feeds"
      = "http://localhost/v1/feeds" ∧
    specStripOneTrailingSlash "http://localhost//" ++ "/v1" ++ "/feeds"
      = "http://localhost//v1/feeds" ∧
    ("http://localhost/v1/feeds" : String) ≠ "http://localhost//v1/feeds" := by
  exact ⟨rfl, rfl, rfl, by decide⟩

/-- C4: every update-style call (update_feed, update_entry, update_user,
update_enclosure, import_entry) serializes exactly the keyword fields
whose value is not None: a pair survives _get_modification_params iff it
occurs in the keyword mapping with a non-null value, so False and 0 are
kept while None and absent fields are dropped, and each call sends the
filtered mapping as its JSON body. -/
theorem c4_modification_params (c : Client) (session : Session)
    (kwargs ukwargs : List (String × Json)) (feed_id user_id enclosure_id entry_id ifeed_id : Int)
    (mp : Option Int) (title content : Option String) (url : String)
    (ititle iauthor icontent : Option String) (ipub : Option Int) (istatus : Option String)
    (istarred : Option Bool) (itags : Option (List String)) (iext icomments : Option String) :
    (∀ (k : String) (v : Json),
      (k, v) ∈ get_modification_params kwargs ↔ (k, v) ∈ kwargs ∧ v ≠ .null) ∧
    get_modification_params [("a", .bool false), ("b", .num 0), ("c", .null)]
      = [("a", .bool false), ("b", .num 0)] ∧
    (Client.update_feed c session feed_id kwargs).1.map Request.body
      = [some (.obj (get_modification_params kwargs))] ∧
    (Client.update_user c session user_id ukwargs).1.map Request.body
      = [some (.obj (get_modification_params ukwargs))] ∧
    (Client.update_entry c session entry_id title content).1.map Request.body
      = [some (.obj (get_modification_params [("title", jsonOfOptStr title), ("content", jsonOfOptStr content)]))] ∧
    (Client.update_enclosure c session enclosure_id mp).1.map Request.body
      = [some (.obj (get_modification_params [("media_progression", jsonOfOptInt mp)]))] ∧
    (url ≠ "" →
      (Client.import_entry c session ifeed_id url ititle iauthor icontent ipub istatus istarred itags iext icomments).1.map Request.body
        = [some (.obj (get_modification_params [("url", .str url), ("title", jsonOfOptStr ititle), ("author", jsonOfOptStr iauthor), ("content", jsonOfOptStr icontent), ("published_at", jsonOfOptInt ipub), ("status", jsonOfOptStr istatus), ("starred", jsonOfOptBool istarred), ("tags", jsonOfOptStrList itags), ("external_id", jsonOfOptStr iext), ("comments_url", jsonOfOptStr icomments)]))]) := by
  refine ⟨?_, rfl, rfl, rfl, rfl, rfl, ?_⟩
  · intro k v
    simp [get_modification_params, List.mem_filter, isNull_false_iff]
  · intro h
    simp only [Client.import_entry, if_neg h]
    rfl

/-- C4 witness: importing an entry with starred := False keeps the
false-valued field and drops the None fields. -/
theorem c4_modification_params_witness :
    (Client.import_entry { base_url := "http://localhost" } (fun _ => { status_code := 201 })
        5 "http://example.org/a" none none none none none (some false) none none none).1.map Request.body
      = [some (.obj (get_modification_params [("url", .str "http://example.org/a"), ("title", jsonOfOptStr none), ("author", jsonOfOptStr none), ("content", jsonOfOptStr none), ("published_at", jsonOfOptInt none), ("status", jsonOfOptStr none), ("starred", jsonOfOptBool (some false)), ("tags", jsonOfOptStrList none), ("external_id", jsonOfOptStr none), ("comments_url", jsonOfOptStr none)]))] :=
  (c4_modification_params { base_url := "http://localhost" } (fun _ => { status_code := 201 })
      [] [] 0 0 0 0 5 none none none "http://example.org/a" none none none none none
      (some false) none none none).2.2.2.2.2.2 (by decide)

/-- C5: the query-parameter read calls (get_entries, get_feed_entries,
get_category_entries) pass exactly the truthy-valued filters: a pair
survives _get_params iff it occurs in the keyword mapping with a truthy
value — False, 0, the empty string and empty collections are dropped —
and each call passes the filtered mapping (or no mapping at all when
nothing survives) as its query parameters, values unchanged. -/
theorem c5_query_params (c : Client) (session : Session)
    (kwargs : List (String × Json)) (feed_id category_id : Int) :
    (∀ (k : String) (v : Json),
      (k, v) ∈ (get_params kwargs).getD [] ↔ (k, v) ∈ kwargs ∧ v.isTruthy) ∧
    (Client.get_entries c session kwargs).1.map Request.params = [get_params kwargs] ∧
    (Client.get_feed_entries c session feed_id kwargs).1.map Request.params = [get_params kwargs] ∧
    (Client.get_category_entries c session category_id kwargs).1.map Request.params = [get_params kwargs] ∧
    (Json.bool false).isTruthy = false ∧ (Json.num 0).isTruthy = false ∧
    (Json.str "").isTruthy = false ∧ (Json.arr []).isTruthy = false ∧
    (Json.obj []).isTruthy = false ∧ Json.null.isTruthy = false := by
  refine ⟨?_, rfl, rfl, rfl, rfl, rfl, rfl, rfl, rfl, rfl⟩
  intro k v
  unfold get_params
  by_cases h : (kwargs.filter (fun kv => kv.2.isTruthy)).length > 0
  · simp only [if_pos h, Option.getD_some]
    exact List.mem_filter
  · have h0 : kwargs.filter (fun kv => kv.2.isTruthy) = [] := by
      rcases Nat.eq_zero_or_pos (kwargs.filter (fun kv => kv.2.isTruthy)).length with h1 | h1
      · exact List.length_eq_zero.mp h1
      · exact absurd h1 h
    simp only [if_neg h, Option.getD_none]
    constructor
    · intro hx
      exact absurd hx (List.not_mem_nil _)
    · intro hx
      have hmem : (k, v) ∈ kwargs.filter (fun kv => kv.2.isTruthy) :=
        List.mem_filter.mpr ⟨hx.1, hx.2⟩
      rw [h0] at hmem
      exact absurd hmem (List.not_mem_nil _)

/-- C7: import_entry with an empty URL raises ValueError "url is
required" locally, and the empty request trace shows that no transport
call occurs, for every feed_id and every combination of optional
fields. -/
theorem c7_import_entry_empty_url (c : Client) (session : Session) (feed_id : Int)
    (title author content : Option String) (published_at : Option Int)
    (status : Option String) (starred : Option Bool) (tags : Option (List String))
    (external_id comments_url : Option String) :
    Client.import_entry c session feed_id "" title author content published_at status
        starred tags external_id comments_url
      = ([], .error (.valueError "url is required")) := rfl

/-- C8: when the server answers feed creation with status 201 and a JSON
body whose feed_id member is the number n, create_feed returns exactly
that number, not the full decoded body. -/
theorem c8_create_feed_returns_feed_id (c : Client) (resp : Response)
    (feed_url : String) (category_id : Option Int) (kwargs : List (String × Json))
    (fields : List (String × Json)) (n : Int)
    (hs : resp.status_code = 201) (hb : resp.body = some (.obj fields))
    (hf : fields.lookup "feed_id" = some (.num n)) :
    (Client.create_feed c (fun _ => resp) feed_url category_id kwargs).2 = .ok (.num n) ∧
    (Client.create_feed c (fun _ => resp) feed_url category_id kwargs).2 ≠ .ok (.obj fields) := by
  have h1 : (Client.create_feed c (fun _ => resp) feed_url category_id kwargs).2 = .ok (.num n) := by
    simp only [Client.create_feed, if_pos hs]
    simp [Response.pyJson, hb, Except.bind, hf]
  refine ⟨h1, ?_⟩
  rw [h1]
  intro h
  injection h with h2
  exact Json.noConfusion h2

/-- C8 witness: a 201 response with body mapping feed_id to 42 makes
create_feed return 42. -/
theorem c8_create_feed_returns_feed_id_witness :
    (Client.create_feed { base_url := "http://localhost" }
      (fun _ => { status_code := 201, body := some (.obj [("feed_id", .num 42)]) })
      "http://example.org/feed" none []).2 = .ok (.num 42) :=
  (c8_create_feed_returns_feed_id { base_url := "http://localhost" }
    { status_code := 201, body := some (.obj [("feed_id", .num 42)]) }
    "http://example.org/feed" none [] [("feed_id", .num 42)] 42 rfl rfl rfl).1

/-- C9: update_entries sends a PUT to the versioned /entries endpoint
with JSON body mapping entry_ids to the given list and status to the
given string; a response status of at least 400 raises the classified
error and anything below 400 returns True; the refresh operations
(refresh_all_feeds, refresh_feed, refresh_category) follow the same rule
and send no body. -/
theorem c9_update_entries_and_refresh (c : Client) (resp : Response)
    (entry_ids : List Int) (status : String) (feed_id category_id : Int) :
    (Client.update_entries c (fun _ => resp) entry_ids status).1
      = [{ method := .put, url := c.base_url ++ "/v1/entries", body := some (.obj [("entry_ids", .arr (entry_ids.map .num)), ("status", .str status)]) }] ∧
    (Client.update_entries c (fun _ => resp) entry_ids status).1.map Request.method = [Method.put] ∧
    (400 ≤ resp.status_code →
      (Client.update_entries c (fun _ => resp) entry_ids status).2
        = .error (.apiError (handle_error_response resp))) ∧
    (resp.status_code < 400 →
      (Client.update_entries c (fun _ => resp) entry_ids status).2 = .ok true) ∧
    ((Client.refresh_all_feeds c (fun _ => resp)).1.map Request.body = [none] ∧
      (Client.refresh_feed c (fun _ => resp) feed_id).1.map Request.body = [none] ∧
      (Client.refresh_category c (fun _ => resp) category_id).1.map Request.body = [none]) ∧
    (400 ≤ resp.status_code →
      (Client.refresh_all_feeds c (fun _ => resp)).2 = .error (.apiError (handle_error_response resp)) ∧
      (Client.refresh_feed c (fun _ => resp) feed_id).2 = .error (.apiError (handle_error_response resp)) ∧
      (Client.refresh_category c (fun _ => resp) category_id).2 = .error (.apiError (handle_error_response resp))) ∧
    (resp.status_code < 400 →
      (Client.refresh_all_feeds c (fun _ => resp)).2 = .ok true ∧
      (Client.refresh_feed c (fun _ => resp) feed_id).2 = .ok true ∧
      (Client.refresh_category c (fun _ => resp) category_id).2 = .ok true) := by
  have hurl : c.get_endpoint "/entries" = c.base_url ++ "/v1/entries" := by
    have hx : "/v1" ++ "/entries" = "/v1/entries" := rfl
    rw [get_endpoint_eq, strAppendAssoc, hx]
  refine ⟨?_, rfl, ?_, ?_, ⟨rfl, rfl, rfl⟩, ?_, ?_⟩
  · show [({ method := .put, url := c.get_endpoint "/entries", body := some (.obj [("entry_ids", .arr (entry_ids.map .num)), ("status", .str status)]) } : Request)] = _
    rw [hurl]
  · intro h
    simp only [Client.update_entries]
    rw [if_pos (by exact h)]
  · intro h
    simp only [Client.update_entries]
    rw [if_neg (by omega)]
  · intro h
    refine ⟨?_, ?_, ?_⟩ <;>
    · simp only [Client.refresh_all_feeds, Client.refresh_feed, Client.refresh_category]
      rw [if_pos (by exact h)]
  · intro h
    refine ⟨?_, ?_, ?_⟩ <;>
    · simp only [Client.refresh_all_feeds, Client.refresh_feed, Client.refresh_category]
      rw [if_neg (by omega)]

/-- C9 witness: updating entries 123 and 456 to "read" against a 204
response returns True, and against a 500 response raises ServerError. -/
theorem c9_update_entries_and_refresh_witness :
    (Client.update_entries { base_url := "http://localhost" } (fun _ => { status_code := 204 })
      [123, 456] "read").2 = .ok true ∧
    (Client.update_entries { base_url := "http://localhost" } (fun _ => { status_code := 500 })
      [123, 456] "read").2 = .error (.apiError (handle_error_response { status_code := 500 })) :=
  ⟨(c9_update_entries_and_refresh { base_url := "http://localhost" } { status_code := 204 }
      [123, 456] "read" 1 1).2.2.2.1 (by decide),
    (c9_update_entries_and_refresh { base_url := "http://localhost" } { status_code := 500 }
      [123, 456] "read" 1 1).2.2.1 (by decide)⟩

/-- C10: the single-resource updates update_feed, update_entry,
update_category and update_user treat only 201 as success: a 200
response, even with a valid JSON body, raises the generic ClientError
(200 matches no typed-error status) carrying status code 200, and the
body is not returned. -/
theorem c10_update_200_raises_generic (c : Client) (resp : Response)
    (feed_id entry_id category_id user_id : Int)
    (fkwargs ukwargs : List (String × Json)) (title content : Option String)
    (ctitle : String) (j : Json)
    (hs : resp.status_code = 200) (_hb : resp.body = some j) :
    (Client.update_feed c (fun _ => resp) feed_id fkwargs).2
      = .error (.apiError (.clientError resp)) ∧
    (Client.update_entry c (fun _ => resp) entry_id title content).2
      = .error (.apiError (.clientError resp)) ∧
    (Client.update_category c (fun _ => resp) category_id ctitle).2
      = .error (.apiError (.clientError resp)) ∧
    (Client.update_user c (fun _ => resp) user_id ukwargs).2
      = .error (.apiError (.clientError resp)) ∧
    (ClientError.clientError resp).kind = .generic ∧
    (ClientError.clientError resp).status_code = 200 := by
  have herr : handle_error_response resp = .clientError resp := by
    unfold handle_error_response
    split_ifs <;> first | rfl | omega
  have hne : ¬ resp.status_code = 201 := by omega
  refine ⟨?_, ?_, ?_, ?_, rfl, ?_⟩
  · simp only [Client.update_feed]
    rw [if_neg hne, herr]
  · simp only [Client.update_entry]
    rw [if_neg hne, herr]
  · simp only [Client.update_category]
    rw [if_neg hne, herr]
  · simp only [Client.update_user]
    rw [if_neg hne, herr]
  · simp [ClientError.status_code, ClientError.response, hs]

/-- C10 witness: update_feed against a 200 response with a JSON body
raises the generic ClientError carrying status 200. -/
theorem c10_update_200_raises_generic_witness :
    (Client.update_feed { base_url := "http://localhost" }
      (fun _ => { status_code := 200, body := some (.obj [("id", .num 7)]) }) 7 []).2
      = .error (.apiError (.clientError { status_code := 200, body := some (.obj [("id", .num 7)]) })) :=
  (c10_update_200_raises_generic { base_url := "http://localhost" }
    { status_code := 200, body := some (.obj [("id", .num 7)]) }
    7 1 1 1 [] [] none none "t" (.obj [("id", .num 7)]) rfl rfl).1

end Miniflux
